import Mathlib

/-!
Verification of the skill-validation and skill-watching core of the
kimi-agent-sdk repository (src/python/src/kimi_agent_sdk/skills/validator.py
and watcher.py), via a shallow embedding in Lean.

Modelling conventions:
* Python strings are Lean `String`s; scanning operations are written over
  `List Char` (the `data` field) so that everything reduces in the kernel.
* YAML values produced by `yaml.safe_load` are modelled by the inductive
  `YVal` (strings, integers, booleans, null, sequences, mappings).  YAML
  floats are not modelled; no claim depends on them.  The PyYAML parser
  itself is abstracted as a parameter `parse : String → Except String YVal`
  (an `Except.error` models a raised `yaml.YAMLError`); every theorem about
  the pipeline quantifies over it or pins its output by hypothesis.
* Python dictionaries are association lists; real directory listings and
  YAML mappings have pairwise-distinct keys, so first-match lookup agrees
  with Python's dictionary lookup on all inputs of interest.
* `str.strip()` is modelled with the ASCII whitespace characters
  (space, tab, newline, carriage return, vertical tab, form feed); the
  Unicode-only whitespace code points are not modelled.  Likewise the `\w`
  class of `re` is modelled as ASCII alphanumeric or underscore.
* Modification timestamps (`st_mtime`, a float only ever compared for
  equality in the source) are modelled as `Int`.
-/

/-- Values produced by parsing YAML frontmatter (`yaml.safe_load`). -/
inductive YVal where
  | str (s : String)
  | int (n : Int)
  | bool (b : Bool)
  | null
  | list (xs : List YVal)
  | map (m : List (String × YVal))

/-- Python truthiness (`if value:`) of a YAML-derived value: empty string,
zero, `False`, `None`, empty list and empty dict are falsy. -/
def pyTruthy : YVal → Bool
  | YVal.str s => !s.data.isEmpty
  | YVal.int n => !(n == 0)
  | YVal.bool b => b
  | YVal.null => false
  | YVal.list xs => !xs.isEmpty
  | YVal.map m => !m.isEmpty

/-- Python `type(v).__name__` for a YAML-derived value. -/
def pyTypeName : YVal → String
  | YVal.str _ => "str"
  | YVal.int _ => "int"
  | YVal.bool _ => "bool"
  | YVal.null => "NoneType"
  | YVal.list _ => "list"
  | YVal.map _ => "dict"

/-- Python `isinstance(v, str)` for a YAML-derived value. -/
def pyIsStr : YVal → Bool
  | YVal.str _ => true
  | _ => false

/-- Dictionary lookup (`d.get(k)`), first matching key. -/
def fmGet (fm : List (String × YVal)) (k : String) : Option YVal :=
  match fm.find? (fun p => p.1 == k) with
  | some p => some p.2
  | none => none

/-- Dictionary membership (`k in d`). -/
def fmHas (fm : List (String × YVal)) (k : String) : Bool :=
  fm.any (fun p => p.1 == k)

/-- Dictionary lookup with a default (`d.get(k, dflt)`). -/
def fmGetD (fm : List (String × YVal)) (k : String) (dflt : YVal) : YVal :=
  match fmGet fm k with
  | some v => v
  | none => dflt

/-- The keys of a dictionary, in insertion order. -/
def fmKeys (fm : List (String × YVal)) : List String :=
  fm.map (fun p => p.1)

/-- Whitespace characters stripped by Python `str.strip()` (ASCII part). -/
def isPySpace (c : Char) : Bool :=
  c == ' ' || c == '\t' || c == '\n' || c == '\r' || c == '\x0b' || c == '\x0c'

/-- Strip leading and trailing whitespace from a character list. -/
def stripChars (cs : List Char) : List Char :=
  ((cs.dropWhile isPySpace).reverse.dropWhile isPySpace).reverse

/-- Python `s.strip()`. -/
def pyStrip (s : String) : String :=
  String.mk (stripChars s.data)

/-- Python `s.startswith(p)`. -/
def strStartsWith (s p : String) : Bool :=
  p.data.isPrefixOf s.data

/-- Python `s.split("\n")` over a character list. -/
def splitNl : List Char → List (List Char)
  | [] => [[]]
  | '\n' :: rest => [] :: splitNl rest
  | c :: rest =>
    match splitNl rest with
    | [] => [[c]]
    | l :: ls => (c :: l) :: ls

/-- A line matching the `re.MULTILINE` pattern starting with hash-space
(the H1 heading check). -/
def isH1Line : List Char → Bool
  | '#' :: ' ' :: _ => true
  | _ => false

/-- A line starting with two hashes and a space (the H2 heading check). -/
def isH2Line : List Char → Bool
  | '#' :: '#' :: ' ' :: _ => true
  | _ => false

/-- A character of the `re` class backslash-w, modelled as ASCII. -/
def isWordChar (c : Char) : Bool :=
  c.isAlphanum || c == '_'

/-- Does a triple backtick immediately followed by a word character start
here?  One match site of `re.findall` with pattern backtick, backtick,
backtick, then one or more word characters. -/
def codeTagAt : List Char → Bool
  | '`' :: '`' :: '`' :: c :: _ => isWordChar c
  | _ => false

/-- Is there any position where the fenced-code-block-with-language pattern
matches?  `re.findall` of that pattern returns a non-empty list iff so. -/
def hasCodeBlockTag : List Char → Bool
  | [] => false
  | c :: rest => codeTagAt (c :: rest) || hasCodeBlockTag rest

/-- Does the character list contain two consecutive hyphens
(Python `"--" in name`)? -/
def hasDoubleDash : List Char → Bool
  | '-' :: '-' :: _ => true
  | _ :: rest => hasDoubleDash rest
  | [] => false

/-- Python `name.startswith("-")`. -/
def startsDash : List Char → Bool
  | '-' :: _ => true
  | _ => false

/-- Python `name.endswith("-")`. -/
def endsDash (cs : List Char) : Bool :=
  match cs.getLast? with
  | some c => c == '-'
  | none => false

/-- A character allowed by the kebab-case pattern class: lowercase ASCII
letter, digit, or hyphen. -/
def isKebabChar (c : Char) : Bool :=
  ('a' ≤ c && c ≤ 'z') || c.isDigit || c == '-'

/-- `re.match` of caret, one or more kebab characters, dollar, against the
already-stripped name (which therefore has no trailing newline). -/
def isKebab (s : String) : Bool :=
  !s.data.isEmpty && s.data.all isKebabChar

/-- Strict lexicographic order on character lists by code point, as Python
compares strings. -/
def lexLt : List Char → List Char → Bool
  | [], [] => false
  | [], _ :: _ => true
  | _ :: _, [] => false
  | a :: as, b :: bs =>
    if a.toNat < b.toNat then true
    else if a.toNat == b.toNat then lexLt as bs
    else false

/-- Python string comparison `a < b`. -/
def strLtB (a b : String) : Bool :=
  lexLt a.data b.data

/-- Insert into an ascending list (helper for `sortStrs`). -/
def insertStr (x : String) : List String → List String
  | [] => [x]
  | y :: ys => if strLtB y x then y :: insertStr x ys else x :: y :: ys

/-- Python `sorted` on strings: ascending by code point. -/
def sortStrs : List String → List String
  | [] => []
  | x :: xs => insertStr x (sortStrs xs)

/-- Result of skill validation (dataclass `SkillValidationResult`).
`skill_name` and `description` carry the raw frontmatter values
(`frontmatter.get(...)`), so they are modelled as optional `YVal`s. -/
structure SkillValidationResult where
  is_valid : Bool
  errors : List String
  warnings : List String
  skill_name : Option YVal
  description : Option YVal

/-- The dunder-bool method of `SkillValidationResult`: `bool(r)`. -/
def SkillValidationResult.toBool (r : SkillValidationResult) : Bool :=
  r.is_valid

/-- Maximum name length (`SkillValidator.MAX_NAME_LENGTH`). -/
def MAX_NAME_LENGTH : Nat := 64

/-- Maximum description length (`SkillValidator.MAX_DESCRIPTION_LENGTH`). -/
def MAX_DESCRIPTION_LENGTH : Nat := 1024

/-- Maximum compatibility length (`SkillValidator.MAX_COMPATIBILITY_LENGTH`). -/
def MAX_COMPATIBILITY_LENGTH : Nat := 500

/-- Allowed frontmatter properties (`SkillValidator.ALLOWED_PROPERTIES`,
a set in the source; listed here in the source's literal order). -/
def ALLOWED_PROPERTIES : List String :=
  ["name", "description", "license", "allowed-tools", "metadata", "compatibility"]

/-- `SkillValidator._create_result`: `is_valid` is the emptiness of the
error list; `skill_name` and `description` are looked up in the parsed
frontmatter when one was passed.  (The source guards the lookup with the
truthiness of the dict; lookup in an empty dict yields `None` either way.) -/
def createResult (errors warnings : List String)
    (fm : Option (List (String × YVal))) : SkillValidationResult :=
  { is_valid := errors.isEmpty
    errors := errors
    warnings := warnings
    skill_name :=
      match fm with
      | some m => fmGet m "name"
      | none => none
    description :=
      match fm with
      | some m => fmGet m "description"
      | none => none }

/-- `SkillValidator._validate_required_fields`: one error per absent
required key, in source order; not an early return. -/
def validate_required_fields (fm : List (String × YVal)) : List String :=
  (if fmHas fm "name" then [] else ["Missing required field: 'name'"]) ++
  (if fmHas fm "description" then [] else ["Missing required field: 'description'"])

/-- The name paragraph of `SkillValidator._validate_field_values`
(lines 193-218): guarded by Python truthiness of `get("name", "")`,
then an isinstance chain over the stripped value.
Returns (errors, warnings). -/
def name_checks (fm : List (String × YVal)) (dir_name : String) :
    List String × List String :=
  let name := fmGetD fm "name" (YVal.str "")
  if pyTruthy name then
    match name with
    | YVal.str s0 =>
      let s := pyStrip s0
      if s.data.isEmpty then
        (["'name' cannot be empty"], [])
      else if !isKebab s then
        (["'name' '" ++ s ++ "' should be kebab-case (lowercase letters, digits, and hyphens only)"], [])
      else if startsDash s.data || endsDash s.data || hasDoubleDash s.data then
        (["'name' '" ++ s ++ "' cannot start/end with hyphen or contain consecutive hyphens"], [])
      else if s.length > MAX_NAME_LENGTH then
        (["'name' is too long (" ++ toString s.length ++ " chars). Maximum is " ++ toString MAX_NAME_LENGTH ++ "."], [])
      else if s != dir_name then
        ([], ["'name' ('" ++ s ++ "') does not match directory name ('" ++ dir_name ++ "')"])
      else ([], [])
    | v => (["'name' must be a string, got " ++ pyTypeName v], [])
  else ([], [])

/-- The description paragraph of `SkillValidator._validate_field_values`
(lines 221-240).  Returns (errors, warnings). -/
def description_checks (fm : List (String × YVal)) : List String × List String :=
  let description := fmGetD fm "description" (YVal.str "")
  if pyTruthy description then
    match description with
    | YVal.str s0 =>
      let s := pyStrip s0
      if s.data.isEmpty then
        (["'description' cannot be empty"], [])
      else if s.data.contains '<' || s.data.contains '>' then
        (["'description' cannot contain angle brackets (< or >)"], [])
      else if s.length > MAX_DESCRIPTION_LENGTH then
        (["'description' is too long (" ++ toString s.length ++ " chars). Maximum is " ++ toString MAX_DESCRIPTION_LENGTH ++ "."], [])
      else if s.length < 50 then
        ([], ["'description' is quite short (" ++ toString s.length ++ " chars). Consider adding more detail for better triggering."])
      else ([], [])
    | v => (["'description' must be a string, got " ++ pyTypeName v], [])
  else ([], [])

/-- The compatibility paragraph of `SkillValidator._validate_field_values`
(lines 243-253): guarded by `is not None` (a present YAML null is Python
`None` and is skipped), then isinstance and length checks.
Produces errors only. -/
def compatibility_checks (fm : List (String × YVal)) : List String :=
  match fmGet fm "compatibility" with
  | none => []
  | some YVal.null => []
  | some (YVal.str s) =>
    if s.length > MAX_COMPATIBILITY_LENGTH then
      ["'compatibility' is too long (" ++ toString s.length ++ " chars). Maximum is " ++ toString MAX_COMPATIBILITY_LENGTH ++ "."]
    else []
  | some v => ["'compatibility' must be a string, got " ++ pyTypeName v]

/-- `SkillValidator._validate_field_values`: the three paragraphs in source
order; errors and warnings accumulate in that order. -/
def validate_field_values (fm : List (String × YVal)) (dir_name : String) :
    List String × List String :=
  let n := name_checks fm dir_name
  let d := description_checks fm
  let c := compatibility_checks fm
  (n.1 ++ d.1 ++ c, n.2 ++ d.2)

/-- `SkillValidator._validate_properties`: the set of keys outside the
allow-list, sorted, joined into one combined error.  The allowed set is
rendered sorted; that sorted join is inlined as a constant here.
`eraseDups` models the set construction (no-op for dict key lists, whose
keys are pairwise distinct). -/
def validate_properties (fm : List (String × YVal)) : List String :=
  let unexpected :=
    sortStrs (((fmKeys fm).filter (fun k => !ALLOWED_PROPERTIES.contains k)).eraseDups)
  if unexpected.isEmpty then []
  else
    ["Unexpected properties in frontmatter: " ++ String.intercalate ", " unexpected ++
      ". Allowed: allowed-tools, compatibility, description, license, metadata, name"]

/-- `SkillValidator._validate_body`: warnings only, in source order
(empty body / missing H1 / missing H2 / long body / no code blocks). -/
def validate_body (body : String) : List String :=
  if body.data.isEmpty then ["SKILL.md body is empty"]
  else
    let lines := splitNl body.data
    let w1 := if lines.any isH1Line then [] else ["No H1 heading (# Title) found in body"]
    let w2 := if lines.any isH2Line then [] else ["No H2 sections (## Section) found in body"]
    let w3 :=
      if lines.length > 500 then
        ["Body is quite long (" ++ toString lines.length ++ " lines). Consider moving detailed content to references/."]
      else []
    let w4 := if hasCodeBlockTag body.data then [] else ["No code blocks found. Consider adding examples."]
    w1 ++ w2 ++ w3 ++ w4

/-- The frontmatter extraction of `SkillValidator._validate_content`
(line 147): `re.match` with pattern caret, three dashes, newline, a
non-greedy dot-all group, newline, three dashes.  `splitAtClose` locates
the first occurrence of newline-dash-dash-dash and splits around it. -/
def splitAtClose : List Char → Option (List Char × List Char)
  | '\n' :: '-' :: '-' :: '-' :: rest => some ([], rest)
  | c :: cs =>
    match splitAtClose cs with
    | some p => some (c :: p.1, p.2)
    | none => none
  | [] => none

/-- The whole regex match: the content must begin with three dashes and a
newline; the group is everything up to the first subsequent
newline-dash-dash-dash; the returned second component is the text after
the match (from which the body is taken). -/
def fmMatch (content : String) : Option (String × String) :=
  match content.data with
  | '-' :: '-' :: '-' :: '\n' :: rest =>
    match splitAtClose rest with
    | some p => some (String.mk p.1, String.mk p.2)
    | none => none
  | _ => none

/-- `SkillValidator._validate_content`, parametric in the YAML parser.
Early returns mirror the source: no leading dashes, no regex match,
parser exception, non-dict root; then the four check groups run and the
result is assembled from the parsed frontmatter. -/
def validate_content (parse : String → Except String YVal)
    (content dir_name : String) : SkillValidationResult :=
  if strStartsWith content "---" then
    match fmMatch content with
    | none =>
      createResult ["Invalid frontmatter format: must have opening '---' and closing '---'"] [] none
    | some fr =>
      match parse fr.1 with
      | Except.error e =>
        createResult ["Invalid YAML in frontmatter: " ++ e] [] none
      | Except.ok (YVal.map fm) =>
        let reqErrs := validate_required_fields fm
        let fv := validate_field_values fm dir_name
        let propErrs := validate_properties fm
        let body := pyStrip fr.2
        let bodyWarns := validate_body body
        createResult (reqErrs ++ fv.1 ++ propErrs) (fv.2 ++ bodyWarns) (some fm)
      | Except.ok _ =>
        createResult ["Frontmatter must be a YAML dictionary"] [] none
  else
    createResult ["YAML frontmatter must start at line 1 (must begin with '---')"] [] none

/-- `SkillValidator.validate_text`: resets the accumulators and validates
the content against the given expected name (default "unknown" in the
source). -/
def validate_text (parse : String → Except String YVal)
    (content skill_name : String) : SkillValidationResult :=
  validate_content parse content skill_name

/-- What the filesystem holds at a skill path, as `SkillValidator.validate`
probes it (lines 92-121): each constructor is one early-return condition,
in source order; the last carries the decoded UTF-8 text of SKILL.md. -/
inductive SkillPathState where
  | notFound
  | notDirectory
  | noSkillMd
  | skillMdNotFile
  | skillMdDecodeErr (msg : String)
  | skillMdReadErr (msg : String)
  | skillMdContent (content : String)

/-- A skill path as seen by `SkillValidator.validate`: its rendering
`str(path)` (used in error messages), its final component `path.name`
(passed as the directory name), and what the filesystem holds there. -/
structure SkillPath where
  pathStr : String
  name : String
  state : SkillPathState

/-- `SkillValidator.validate`: the early-return ladder over the
filesystem state, then `_validate_content` on the decoded text with the
directory's name. -/
def validate (parse : String → Except String YVal)
    (p : SkillPath) : SkillValidationResult :=
  match p.state with
  | SkillPathState.notFound =>
    createResult ["Skill path does not exist: " ++ p.pathStr] [] none
  | SkillPathState.notDirectory =>
    createResult ["Skill path is not a directory: " ++ p.pathStr] [] none
  | SkillPathState.noSkillMd =>
    createResult ["SKILL.md not found in " ++ p.pathStr] [] none
  | SkillPathState.skillMdNotFile =>
    createResult ["SKILL.md is not a file: " ++ p.pathStr ++ "/SKILL.md"] [] none
  | SkillPathState.skillMdDecodeErr m =>
    createResult ["SKILL.md is not valid UTF-8: " ++ m] [] none
  | SkillPathState.skillMdReadErr m =>
    createResult ["Cannot read SKILL.md: " ++ m] [] none
  | SkillPathState.skillMdContent c =>
    validate_content parse c p.name

/-- A filesystem path, as its list of components (the watcher only ever
builds paths by joining and compares them for equality). -/
abbrev FsPath := List String

/-- Rendering of a path in error messages (`f"...{self.skills_dir}"`). -/
def pathRender (p : FsPath) : String :=
  String.intercalate "/" p

/-- Type of file change (enum `ChangeType`). -/
inductive ChangeType where
  | CREATED
  | MODIFIED
  | DELETED
deriving DecidableEq

/-- Event representing a skill file change (dataclass `SkillChangeEvent`). -/
structure SkillChangeEvent where
  skill_name : String
  skill_path : FsPath
  change_type : ChangeType
  file_path : FsPath
deriving DecidableEq

/-- Outcome of `stat()` on a SKILL.md: an `OSError`, or a modification
timestamp (`st_mtime`; only ever compared for equality, modelled as Int). -/
inductive StatOutcome where
  | err
  | mtime (t : Int)
deriving DecidableEq

/-- One entry of `skills_dir.iterdir()`: its name, whether it is a
directory, and — when a SKILL.md exists inside it — that file's stat
outcome (`none` means no SKILL.md).  A real listing has pairwise-distinct
names. -/
structure DirEntry where
  name : String
  isDir : Bool
  skillMd : Option StatOutcome
deriving DecidableEq

/-- The watcher's root directory as one scan observes it. -/
inductive RootFs where
  | missing
  | notDir
  | dir (entries : List DirEntry)
deriving DecidableEq

/-- The mutable state of a `SkillWatcher`: `running` is `self._running`,
`task` is whether `self._task` holds a live task, `stopped` is the
`asyncio.Event` `self._stopped`, and the two baselines are `self._mtimes`
and `self._known_skills` (insertion-ordered dictionaries). -/
structure SkillWatcher where
  skills_dir : FsPath
  poll_interval : Int
  running : Bool
  task : Bool
  stopped : Bool
  mtimes : List (FsPath × Int)
  known_skills : List (String × FsPath)
deriving DecidableEq

/-- `SkillWatcher.__init__`: not running, no task, stop event unset,
empty baselines. -/
def mkSkillWatcher (skills_dir : FsPath) (poll_interval : Int) : SkillWatcher :=
  { skills_dir := skills_dir
    poll_interval := poll_interval
    running := false
    task := false
    stopped := false
    mtimes := []
    known_skills := [] }

/-- The path of a skill directory under the root (`skills_dir / name`). -/
def skillDirPath (root : FsPath) (name : String) : FsPath :=
  root ++ [name]

/-- The path of a SKILL.md under the root (`skill_dir / "SKILL.md"`). -/
def skillMdPath (root : FsPath) (name : String) : FsPath :=
  root ++ [name, "SKILL.md"]

/-- The mtime baseline `_scan_all` builds: one entry per listing entry that
is a directory, contains a SKILL.md, and whose `stat()` succeeds (an
`OSError` is swallowed and records nothing). -/
def buildMtimes (root : FsPath) : List DirEntry → List (FsPath × Int)
  | [] => []
  | e :: es =>
    (if e.isDir then
      match e.skillMd with
      | some (StatOutcome.mtime t) => [(skillMdPath root e.name, t)]
      | _ => []
    else []) ++ buildMtimes root es

/-- The known-skills baseline `_scan_all` builds, under the same
conditions as `buildMtimes`. -/
def buildKnown (root : FsPath) : List DirEntry → List (String × FsPath)
  | [] => []
  | e :: es =>
    (if e.isDir then
      match e.skillMd with
      | some (StatOutcome.mtime _) => [(e.name, skillDirPath root e.name)]
      | _ => []
    else []) ++ buildKnown root es

/-- The directory case of `_scan_all`: both baselines rebuilt from the
listing. -/
def scan_dir (w : SkillWatcher) (es : List DirEntry) : SkillWatcher :=
  { w with
    mtimes := buildMtimes w.skills_dir es
    known_skills := buildKnown w.skills_dir es }

/-- `SkillWatcher._scan_all`: clears both baselines, returns with them
empty when the root does not exist, and otherwise rebuilds them from the
listing.  `none` models the `NotADirectoryError` that `iterdir()` raises
when the root exists but is a file; `_scan_all` does not catch it. -/
def scan_all (w : SkillWatcher) (fs : RootFs) : Option SkillWatcher :=
  match fs with
  | RootFs.missing => some { w with mtimes := [], known_skills := [] }
  | RootFs.notDir => none
  | RootFs.dir es => some (scan_dir w es)

/-- The error `SkillWatcher.start` can raise: `FileNotFoundError` or
`NotADirectoryError`, with its message. -/
inductive StartError where
  | fileNotFound (msg : String)
  | notADirectory (msg : String)
deriving DecidableEq

/-- `SkillWatcher.start`: early return when already running; then the two
directory checks, each raising and leaving the watcher untouched; then the
baseline scan, the running flag set, the stop event cleared, and the poll
task created.  The returned pair is the watcher's state after the call and
the raised error, if any. -/
def SkillWatcher.start (w : SkillWatcher) (fs : RootFs) :
    SkillWatcher × Option StartError :=
  if w.running then (w, none)
  else
    match fs with
    | RootFs.missing =>
      (w, some (StartError.fileNotFound
        ("Skills directory does not exist: " ++ pathRender w.skills_dir)))
    | RootFs.notDir =>
      (w, some (StartError.notADirectory
        ("Path is not a directory: " ++ pathRender w.skills_dir)))
    | RootFs.dir es =>
      ({ scan_dir w es with running := true, stopped := false, task := true }, none)

/-- `SkillWatcher.stop`: early return when not running; otherwise the
running flag is cleared, the task cancelled and dropped, and the stop
event set. -/
def SkillWatcher.stop (w : SkillWatcher) : SkillWatcher :=
  if w.running then
    { w with running := false, task := false, stopped := true }
  else w

/-- `old_mtimes.get(path, 0)`. -/
def mtimeGetD (m : List (FsPath × Int)) (p : FsPath) : Int :=
  match m.find? (fun q => q.1 == p) with
  | some q => q.2
  | none => 0

/-- Lookup in a known-skills dictionary. -/
def skillsGet (s : List (String × FsPath)) (n : String) : Option FsPath :=
  match s.find? (fun q => q.1 == n) with
  | some q => some q.2
  | none => none

/-- Membership in a known-skills dictionary (`name in skills`). -/
def skillsHas (s : List (String × FsPath)) (n : String) : Bool :=
  s.any (fun q => q.1 == n)

/-- One iteration of the diff loop of `force_refresh` for one skill name:
CREATED when only the new baseline knows it, DELETED when only the old one
does, otherwise MODIFIED when the mtimes recorded for its SKILL.md differ
(with default 0).  The name always comes from the union of the two key
sets, so the source's dictionary accesses cannot fail; the `none`
fallbacks of the lookups are unreachable under that precondition. -/
def diffOne (old_m new_m : List (FsPath × Int))
    (old_s new_s : List (String × FsPath)) (n : String) :
    Option SkillChangeEvent :=
  if skillsHas new_s n && !skillsHas old_s n then
    match skillsGet new_s n with
    | some p => some { skill_name := n, skill_path := p,
                       change_type := ChangeType.CREATED,
                       file_path := p ++ ["SKILL.md"] }
    | none => none
  else if skillsHas old_s n && !skillsHas new_s n then
    match skillsGet old_s n with
    | some p => some { skill_name := n, skill_path := p,
                       change_type := ChangeType.DELETED,
                       file_path := p ++ ["SKILL.md"] }
    | none => none
  else
    match skillsGet old_s n, skillsGet new_s n with
    | some po, some pn =>
      if mtimeGetD old_m (po ++ ["SKILL.md"]) != mtimeGetD new_m (pn ++ ["SKILL.md"]) then
        some { skill_name := n, skill_path := pn,
               change_type := ChangeType.MODIFIED,
               file_path := pn ++ ["SKILL.md"] }
      else none
    | _, _ => none

/-- `SkillWatcher.force_refresh`: snapshot the old baselines, rescan, then
diff old against new per skill name and return the new state with the
event list.  `none` models the `NotADirectoryError` propagating out of
`_scan_all` when the root is a file.  CPython iterates the key-set union
in an unspecified order; it is modelled as the old keys followed by the
new ones, first occurrences kept. -/
def SkillWatcher.force_refresh (w : SkillWatcher) (fs : RootFs) :
    Option (SkillWatcher × List SkillChangeEvent) :=
  match scan_all w fs with
  | none => none
  | some w1 =>
    let old_m := w.mtimes
    let old_s := w.known_skills
    let all_skills :=
      ((old_s.map (fun q => q.1)) ++ (w1.known_skills.map (fun q => q.1))).eraseDups
    some (w1, all_skills.filterMap (diffOne old_m w1.mtimes old_s w1.known_skills))

/-- A constant parser, standing in for PyYAML in concrete instances. -/
def stubParse (v : YVal) : String → Except String YVal :=
  fun _ => Except.ok v

/-- Modelled from the spec: "a fenced code block marker" is three
consecutive backticks anywhere in the body.  Used only to state claims
that compare the source's warning condition against the spec's notion. -/
def specHasFenceMarker : List Char → Bool
  | '`' :: '`' :: '`' :: _ => true
  | _ :: rest => specHasFenceMarker rest
  | [] => false

/-- A concrete skill path whose SKILL.md reads as a fixed string (used in
concrete instances of the path/text round trip). -/
def exSkillPath : SkillPath :=
  { pathStr := "skills/demo"
    name := "demo"
    state := SkillPathState.skillMdContent "---\nname: demo\n---\nbody" }

/-- A watcher that is already running (its baseline holds one skill). -/
def runningWatcher : SkillWatcher :=
  { skills_dir := ["skills"]
    poll_interval := 1
    running := true
    task := true
    stopped := false
    mtimes := [(["skills", "a", "SKILL.md"], 5)]
    known_skills := [("a", ["skills", "a"])] }

/-- A list is empty exactly when it is the empty list. -/
theorem isEmpty_true_iff (l : List String) : l.isEmpty = true ↔ l = [] := by
  cases l <;> simp

/-- The result assembled by the validator is valid exactly when its error
list is empty. -/
theorem createResult_valid_iff (e w : List String) (f : Option (List (String × YVal))) :
    (createResult e w f).is_valid = true ↔ (createResult e w f).errors = [] := by
  cases e <;> simp [createResult]

/-- Every branch of the content pipeline returns through `createResult`. -/
theorem validate_content_shape (parse : String → Except String YVal) (c n : String) :
    ∃ e w f, validate_content parse c n = createResult e w f := by
  unfold validate_content
  repeat' split
  all_goals exact ⟨_, _, _, rfl⟩

/-- Validity/emptiness invariant for the content pipeline. -/
theorem validate_content_valid_iff (parse : String → Except String YVal) (c n : String) :
    (validate_content parse c n).is_valid = true ↔ (validate_content parse c n).errors = [] := by
  obtain ⟨e, w, f, h⟩ := validate_content_shape parse c n
  rw [h]
  exact createResult_valid_iff e w f

/-- Validity/emptiness invariant for the path entry point. -/
theorem validate_valid_iff (parse : String → Except String YVal) (p : SkillPath) :
    (validate parse p).is_valid = true ↔ (validate parse p).errors = [] := by
  unfold validate
  split
  all_goals first
    | exact createResult_valid_iff _ _ _
    | exact validate_content_valid_iff _ _ _

/-- C1: for every SkillValidationResult returned by validate or
validate_text, is_valid is true if and only if the errors list is empty,
and the warnings list never affects is_valid (two results assembled from
the same errors and frontmatter but different warnings have the same
is_valid). -/
theorem C1_is_valid_iff_errors_empty :
    (∀ (parse : String → Except String YVal) (p : SkillPath),
      ((validate parse p).is_valid = true ↔ (validate parse p).errors = [])) ∧
    (∀ (parse : String → Except String YVal) (content n : String),
      ((validate_text parse content n).is_valid = true ↔
        (validate_text parse content n).errors = [])) ∧
    (∀ (e w w' : List String) (f : Option (List (String × YVal))),
      (createResult e w f).is_valid = (createResult e w' f).is_valid) := by
  refine ⟨fun parse p => validate_valid_iff parse p,
          fun parse content n => validate_content_valid_iff parse content n,
          fun e w w' f => rfl⟩

/-- C10: the boolean coercion of a SkillValidationResult equals its
is_valid field, so a result returned by validate is truthy exactly when
validation reported zero errors. -/
theorem C10_bool_is_valid :
    (∀ r : SkillValidationResult, r.toBool = r.is_valid) ∧
    (∀ (parse : String → Except String YVal) (p : SkillPath),
      ((validate parse p).toBool = true ↔ (validate parse p).errors = [])) := by
  exact ⟨fun r => rfl, fun parse p => validate_valid_iff parse p⟩

/-- C2: validating a directory whose SKILL.md decodes to exactly a given
content string yields the very same result as validating that text
against the directory's name: identical errors, warnings and is_valid. -/
theorem C2_path_text_roundtrip (parse : String → Except String YVal)
    (p : SkillPath) (content n : String)
    (hstate : p.state = SkillPathState.skillMdContent content)
    (hname : p.name = n) :
    validate parse p = validate_text parse content n := by
  unfold validate validate_text
  rw [hstate, hname]

/-- Concrete instance of the round trip. -/
theorem C2_path_text_roundtrip_witness :
    validate (stubParse (YVal.map [("name", YVal.str "demo")])) exSkillPath =
      validate_text (stubParse (YVal.map [("name", YVal.str "demo")]))
        "---\nname: demo\n---\nbody" "demo" :=
  C2_path_text_roundtrip (stubParse (YVal.map [("name", YVal.str "demo")]))
    exSkillPath "---\nname: demo\n---\nbody" "demo" rfl rfl
/-- A non-empty string has a non-empty character list. -/
theorem str_ne_empty_data (s : String) (h : s ≠ "") : s.data.isEmpty = false := by
  cases s with
  | mk cs =>
    cases cs with
    | nil => exact absurd rfl h
    | cons c cs => rfl

/-- A successful frontmatter match implies the startswith guard held. -/
theorem fmMatch_some_startsWith (c : String) (x : String × String)
    (h : fmMatch c = some x) : strStartsWith c "---" = true := by
  unfold fmMatch at h
  split at h
  next heq => unfold strStartsWith; rw [heq]; rfl
  next => cases h

/-- Value of the content pipeline once the frontmatter matched and parsed
to a mapping. -/
theorem validate_content_parsed (parse : String → Except String YVal)
    (c d fmText rest : String) (fm : List (String × YVal))
    (hm : fmMatch c = some (fmText, rest))
    (hp : parse fmText = Except.ok (YVal.map fm)) :
    validate_content parse c d =
      createResult
        (validate_required_fields fm ++ (validate_field_values fm d).1 ++ validate_properties fm)
        ((validate_field_values fm d).2 ++ validate_body (pyStrip rest))
        (some fm) := by
  have hs := fmMatch_some_startsWith c (fmText, rest) hm
  unfold validate_content
  rw [hs, if_pos rfl, hm]
  dsimp only
  rw [hp]

/-- Soundness of the close-delimiter search: a successful split
decomposes the input around a newline-dash-dash-dash, and the consumed
prefix contains no earlier occurrence of that delimiter (the match is the
first, i.e. non-greedy). -/
theorem splitAtClose_some (cs : List Char) : ∀ (pre post : List Char),
    splitAtClose cs = some (pre, post) →
    cs = pre ++ '\n' :: '-' :: '-' :: '-' :: post ∧ splitAtClose pre = none := by
  induction cs using splitAtClose.induct with
  | case1 rest =>
    intro pre post h
    simp only [splitAtClose] at h
    injection h with h2
    injection h2 with h3 h4
    subst h3
    subst h4
    exact ⟨rfl, rfl⟩
  | case2 c cs hguard p hsome ih =>
    intro pre post h
    obtain ⟨p1, p2⟩ := p
    rw [splitAtClose.eq_def] at h
    split at h
    next rest heq =>
      injection heq with hc hcs
      exact absurd trivial (fun _ => hguard rest hc hcs)
    next c2 cs2 heq =>
      injection heq with hc hcs
      subst hc
      subst hcs
      rw [hsome] at h
      dsimp only at h
      injection h with h2
      injection h2 with h3 h4
      subst h3
      subst h4
      obtain ⟨hdec, hnone⟩ := ih p1 p2 hsome
      constructor
      · rw [hdec]
        rfl
      · rw [splitAtClose.eq_def]
        split
        next rest2 heq2 =>
          injection heq2 with hc2 hcs2
          rw [hcs2] at hdec
          exact absurd trivial
            (fun _ => hguard (rest2 ++ '\n' :: '-' :: '-' :: '-' :: p2) hc2 (by rw [hdec]; rfl))
        next c3 cs3 heq3 =>
          injection heq3 with hc3 hcs3
          rw [← hcs3] at *
          rw [hnone]
        next heq3 =>
          exact absurd heq3 (List.cons_ne_nil _ _)
    next heq =>
      cases h
  | case3 c cs hguard hnone ih =>
    intro pre post h
    rw [splitAtClose.eq_def] at h
    split at h
    next rest heq =>
      injection heq with hc hcs
      exact absurd trivial (fun _ => hguard rest hc hcs)
    next c2 cs2 heq =>
      injection heq with hc hcs
      subst hc
      subst hcs
      rw [hnone] at h
      dsimp only at h
      cases h
    next heq =>
      exact absurd heq (List.cons_ne_nil _ _)
  | case4 =>
    intro pre post h
    cases h

/-- C5: for every frontmatter mapping missing the key name the result
contains the missing-name error; for every mapping missing description,
the missing-description error; and when both keys are absent both errors
appear in the same result (the required-field check is not an early
return). -/
theorem C5_missing_required_fields (parse : String → Except String YVal)
    (c d fmText rest : String) (fm : List (String × YVal))
    (hm : fmMatch c = some (fmText, rest))
    (hp : parse fmText = Except.ok (YVal.map fm)) :
    (fmHas fm "name" = false →
      "Missing required field: 'name'" ∈ (validate_content parse c d).errors) ∧
    (fmHas fm "description" = false →
      "Missing required field: 'description'" ∈ (validate_content parse c d).errors) := by
  rw [validate_content_parsed parse c d fmText rest fm hm hp]
  constructor
  · intro h
    simp [createResult, validate_required_fields, h]
  · intro h
    simp [createResult, validate_required_fields, h]

/-- Concrete instance of C5: an empty frontmatter mapping yields both
required-field errors in one result. -/
theorem C5_missing_required_fields_witness :
    ("Missing required field: 'name'" ∈
      (validate_content (stubParse (YVal.map [])) "---\nx\n---" "demo").errors) ∧
    ("Missing required field: 'description'" ∈
      (validate_content (stubParse (YVal.map [])) "---\nx\n---" "demo").errors) := by
  have h := C5_missing_required_fields (stubParse (YVal.map []))
    "---\nx\n---" "demo" "x" "" [] rfl rfl
  exact ⟨h.1 rfl, h.2 rfl⟩

/-- C3 (amended): a name bound to a non-empty string that trims to empty
yields the empty-name error, and a name bound to a truthy non-string
value yields the wrong-type error; names bound to the empty string (or
any other falsy value) are skipped by the truthiness guard and produce
neither error. -/
theorem C3_name_field_checks (fm : List (String × YVal)) (d : String) :
    (∀ s : String, fmGet fm "name" = some (YVal.str s) → s ≠ "" → pyStrip s = "" →
      "'name' cannot be empty" ∈ (validate_field_values fm d).1) ∧
    (∀ v : YVal, fmGet fm "name" = some v → pyIsStr v = false → pyTruthy v = true →
      ("'name' must be a string, got " ++ pyTypeName v) ∈ (validate_field_values fm d).1) := by
  constructor
  · intro s hget hne hstrip
    have hstrip' : (pyStrip s).data.isEmpty = true := by rw [hstrip]; rfl
    have hnc : name_checks fm d = (["'name' cannot be empty"], []) := by
      simp [name_checks, fmGetD, hget, pyTruthy, str_ne_empty_data s hne, hstrip']
    simp [validate_field_values, hnc]
  · intro v hget hstr htr
    have hnc : name_checks fm d =
        (["'name' must be a string, got " ++ pyTypeName v], []) := by
      unfold name_checks
      rw [show fmGetD fm "name" (YVal.str "") = v by simp [fmGetD, hget]]
      simp only [htr, eq_self_iff_true, if_true]
      cases v
      case str s => simp [pyIsStr] at hstr
      all_goals rfl
    simp [validate_field_values, hnc]

/-- Counterexample to C3 as stated: a name bound to the empty string
produces no empty-name error, and a name bound to the integer 0 (a
non-string) produces no wrong-type error. -/
theorem C3_counterexample :
    ¬ ("'name' cannot be empty" ∈ (validate_field_values [("name", YVal.str "")] "demo").1) ∧
    ¬ (("'name' must be a string, got " ++ pyTypeName (YVal.int 0)) ∈
        (validate_field_values [("name", YVal.int 0)] "demo").1) := by
  decide

/-- Concrete instance of the amended C3: a whitespace-only name yields
the empty-name error; a boolean name yields the wrong-type error. -/
theorem C3_name_field_checks_witness :
    ("'name' cannot be empty" ∈ (validate_field_values [("name", YVal.str "   ")] "demo").1) ∧
    (("'name' must be a string, got " ++ pyTypeName (YVal.bool true)) ∈
      (validate_field_values [("name", YVal.bool true)] "demo").1) := by
  constructor
  · exact (C3_name_field_checks [("name", YVal.str "   ")] "demo").1 "   " rfl (by decide) rfl
  · exact (C3_name_field_checks [("name", YVal.bool true)] "demo").2 (YVal.bool true) rfl rfl rfl

/-- C4 (amended): the frontmatter block ends at the first subsequent
occurrence of a newline followed by three dashes — i.e. at the first
subsequent line that BEGINS with the dashes, trailing characters on that
line permitted.  When content starts with the dashes but no such
occurrence follows, validation terminates with the single
frontmatter-format error for every parser (so no parse is attempted). -/
theorem C4_frontmatter_close_delimiter :
    (∀ (parse : String → Except String YVal) (c d : String),
      strStartsWith c "---" = true → fmMatch c = none →
      validate_content parse c d =
        createResult ["Invalid frontmatter format: must have opening '---' and closing '---'"] [] none) ∧
    (∀ (c t r : String), fmMatch c = some (t, r) →
      c.data = '-' :: '-' :: '-' :: '\n' :: (t.data ++ '\n' :: '-' :: '-' :: '-' :: r.data) ∧
      splitAtClose t.data = none) := by
  constructor
  · intro parse c d h1 h2
    unfold validate_content
    rw [h1, if_pos rfl, h2]
  · intro c t r h
    unfold fmMatch at h
    split at h
    next rest heq =>
      split at h
      next p heq2 =>
        obtain ⟨p1, p2⟩ := p
        injection h with h2
        injection h2 with h3 h4
        subst h3
        subst h4
        obtain ⟨hdec, hnone⟩ := splitAtClose_some rest p1 p2 heq2
        rw [heq, hdec]
        exact ⟨rfl, hnone⟩
      next => cases h
    next => cases h

/-- Concrete instances of the amended C4: an unterminated frontmatter
yields exactly the format error, and a block closed by a dash line with
trailing characters decomposes around that line. -/
theorem C4_frontmatter_close_delimiter_witness :
    (validate_content (stubParse YVal.null) "---\nabc" "demo" =
      createResult ["Invalid frontmatter format: must have opening '---' and closing '---'"] [] none) ∧
    ("---\na\n---x".data = '-' :: '-' :: '-' :: '\n' ::
        ("a".data ++ '\n' :: '-' :: '-' :: '-' :: "x".data) ∧
      splitAtClose "a".data = none) :=
  ⟨C4_frontmatter_close_delimiter.1 (stubParse YVal.null) "---\nabc" "demo" rfl rfl,
   C4_frontmatter_close_delimiter.2 "---\na\n---x" "a" "x" rfl⟩

/-- Counterexample to C4 as stated: in a document whose only candidate
closing line is dashes-plus-trailing-characters, no subsequent line is
exactly the dashes, yet the frontmatter matches (ending at that line) and
no frontmatter-format error is produced. -/
theorem C4_counterexample :
    fmMatch "---\na: 1\n---extra" = some ("a: 1", "extra") ∧
    ¬ ("Invalid frontmatter format: must have opening '---' and closing '---'" ∈
        (validate_content (stubParse (YVal.map [("a", YVal.int 1)]))
          "---\na: 1\n---extra" "demo").errors) := by
  constructor
  · rfl
  · decide

/-- The character list of a concatenation. -/
theorem string_data_append (a b : String) : (a ++ b).data = a.data ++ b.data := rfl

/-- Two strings whose first characters differ are different. -/
theorem ne_by_head (a b : String) (h : a.data.head? ≠ b.data.head?) : a ≠ b :=
  fun e => h (congrArg (fun t : String => t.data.head?) e)

/-- The long-body warning always begins with the letter B. -/
theorem long_msg_head (x y : String) :
    (("Body is quite long (" ++ x) ++ y).data.head? = some 'B' := by
  rw [string_data_append, string_data_append]
  rfl

/-- The no-code-blocks warning is never the long-body warning. -/
theorem no_code_ne_long (n : Nat) :
    ("No code blocks found. Consider adding examples." =
      "Body is quite long (" ++ toString n ++ " lines). Consider moving detailed content to references/.") ↔ False := by
  simp only [iff_false]
  exact ne_by_head _ _ (by rw [long_msg_head]; decide)

/-- Membership of the no-code-blocks warning in the assembled body
warnings depends only on the code-block condition. -/
theorem mem_warn_iff (A B : Bool) (n : Nat) (D : Bool) :
    ("No code blocks found. Consider adding examples." ∈
      ((if A = true then [] else ["No H1 heading (# Title) found in body"]) ++
       (if B = true then [] else ["No H2 sections (## Section) found in body"]) ++
       (if n > 500 then
         ["Body is quite long (" ++ toString n ++ " lines). Consider moving detailed content to references/."]
        else []) ++
       (if D = true then [] else ["No code blocks found. Consider adding examples."]))) ↔
      D = false := by
  by_cases hn : n > 500 <;>
    cases A <;> cases B <;> cases D <;>
      simp [List.mem_append, no_code_ne_long, hn]

/-- C6 (amended): for every non-empty body, the no-code-blocks warning is
present exactly when the body contains no triple backtick immediately
followed by a word character (a language tag); a bare fence without a tag
does not count and still receives the warning. -/
theorem C6_no_code_blocks_warning (body : String) (h : body ≠ "") :
    ("No code blocks found. Consider adding examples." ∈ validate_body body) ↔
      hasCodeBlockTag body.data = false := by
  have hne : body.data.isEmpty = false := str_ne_empty_data body h
  unfold validate_body
  rw [hne, if_neg (by decide)]
  dsimp only
  exact mem_warn_iff _ _ _ _

/-- Counterexample to C6 as stated: a body consisting of a bare fenced
code block with no language tag contains the fence marker, yet the
no-code-blocks warning is present. -/
theorem C6_counterexample :
    ("No code blocks found. Consider adding examples." ∈ validate_body "```\ncode\n```") ∧
    specHasFenceMarker "```\ncode\n```".data = true := by
  decide

/-- Concrete instance of the amended C6 on a fence-free body. -/
theorem C6_no_code_blocks_warning_witness :
    ("No code blocks found. Consider adding examples." ∈ validate_body "hello") ↔
      hasCodeBlockTag "hello".data = false :=
  C6_no_code_blocks_warning "hello" (by decide)

/-- C7 (amended): for every watcher that is not already running, start on
a missing root raises the not-found error and start on a non-directory
root raises the not-a-directory error, and in both cases the watcher's
state — running flag, task, stop event, and both baseline mappings — is
returned exactly as it was before the call. -/
theorem C7_start_on_bad_root (w : SkillWatcher) (fs : RootFs) (h : w.running = false) :
    (fs = RootFs.missing →
      SkillWatcher.start w fs =
        (w, some (StartError.fileNotFound
          ("Skills directory does not exist: " ++ pathRender w.skills_dir)))) ∧
    (fs = RootFs.notDir →
      SkillWatcher.start w fs =
        (w, some (StartError.notADirectory
          ("Path is not a directory: " ++ pathRender w.skills_dir)))) := by
  constructor <;> intro hfs <;> subst hfs <;> simp [SkillWatcher.start, h]

/-- Counterexample to C7 as stated: on an already-running watcher whose
root directory does not exist, start returns before the existence check,
raising no error and leaving the watcher running. -/
theorem C7_counterexample :
    SkillWatcher.start runningWatcher RootFs.missing = (runningWatcher, none) ∧
    runningWatcher.running = true :=
  ⟨rfl, rfl⟩

/-- Concrete instances of the amended C7 on a freshly constructed
watcher. -/
theorem C7_start_on_bad_root_witness :
    (SkillWatcher.start (mkSkillWatcher ["skills"] 1) RootFs.missing =
      (mkSkillWatcher ["skills"] 1, some (StartError.fileNotFound
        ("Skills directory does not exist: " ++
          pathRender (mkSkillWatcher ["skills"] 1).skills_dir)))) ∧
    (SkillWatcher.start (mkSkillWatcher ["skills"] 1) RootFs.notDir =
      (mkSkillWatcher ["skills"] 1, some (StartError.notADirectory
        ("Path is not a directory: " ++
          pathRender (mkSkillWatcher ["skills"] 1).skills_dir)))) :=
  ⟨(C7_start_on_bad_root (mkSkillWatcher ["skills"] 1) RootFs.missing rfl).1 rfl,
   (C7_start_on_bad_root (mkSkillWatcher ["skills"] 1) RootFs.notDir rfl).2 rfl⟩

/-- C8: start on a running watcher is a no-op returning the state
unchanged with no error (no new baseline scan, no new task), and stop on
a watcher that is not running returns the state unchanged. -/
theorem C8_start_stop_noop :
    (∀ (w : SkillWatcher) (fs : RootFs), w.running = true →
      SkillWatcher.start w fs = (w, none)) ∧
    (∀ w : SkillWatcher, w.running = false → SkillWatcher.stop w = w) := by
  constructor
  · intro w fs h
    simp [SkillWatcher.start, h]
  · intro w h
    simp [SkillWatcher.stop, h]

/-- Concrete instances of C8. -/
theorem C8_start_stop_noop_witness :
    SkillWatcher.start runningWatcher (RootFs.dir []) = (runningWatcher, none) ∧
    SkillWatcher.stop (mkSkillWatcher ["skills"] 1) = mkSkillWatcher ["skills"] 1 :=
  ⟨C8_start_stop_noop.1 runningWatcher (RootFs.dir []) rfl,
   C8_start_stop_noop.2 (mkSkillWatcher ["skills"] 1) rfl⟩

/-- Diffing a baseline against itself reports nothing for any name. -/
theorem diffOne_self (m : List (FsPath × Int)) (s : List (String × FsPath)) (n : String) :
    diffOne m m s s n = none := by
  unfold diffOne
  cases hg : skillsGet s n <;> simp [hg, Bool.and_not_self]

/-- C9: whatever state a watcher is in, if force_refresh succeeds and is
then called again with the filesystem observed identically, the second
call returns an empty event sequence (and leaves the baselines as the
first call set them). -/
theorem C9_force_refresh_twice (w : SkillWatcher) (fs : RootFs)
    (p : SkillWatcher × List SkillChangeEvent)
    (h : SkillWatcher.force_refresh w fs = some p) :
    SkillWatcher.force_refresh p.1 fs = some (p.1, []) := by
  cases fs with
  | notDir => simp [SkillWatcher.force_refresh, scan_all] at h
  | missing =>
    simp only [SkillWatcher.force_refresh, scan_all] at h
    injection h with h1
    subst h1
    rfl
  | dir es =>
    simp only [SkillWatcher.force_refresh, scan_all] at h
    injection h with h1
    subst h1
    have hevs :
        (((buildKnown w.skills_dir es).map (fun q => q.1) ++
            (buildKnown w.skills_dir es).map (fun q => q.1)).eraseDups).filterMap
          (diffOne (buildMtimes w.skills_dir es) (buildMtimes w.skills_dir es)
            (buildKnown w.skills_dir es) (buildKnown w.skills_dir es)) = [] :=
      List.filterMap_eq_nil_iff.mpr (fun n _ => diffOne_self _ _ n)
    calc SkillWatcher.force_refresh (scan_dir w es, _).1 (RootFs.dir es)
        = some (scan_dir w es,
            (((buildKnown w.skills_dir es).map (fun q => q.1) ++
                (buildKnown w.skills_dir es).map (fun q => q.1)).eraseDups).filterMap
              (diffOne (buildMtimes w.skills_dir es) (buildMtimes w.skills_dir es)
                (buildKnown w.skills_dir es) (buildKnown w.skills_dir es))) := rfl
      _ = some ((scan_dir w es, _).1, []) := by rw [hevs]

/-- Concrete instance of C9: a first refresh that discovers one skill,
then a second refresh over the same filesystem returning no events. -/
theorem C9_force_refresh_twice_witness :
    SkillWatcher.force_refresh
      { skills_dir := ["skills"], poll_interval := 1, running := false, task := false,
        stopped := false, mtimes := [(["skills", "a", "SKILL.md"], 5)],
        known_skills := [("a", ["skills", "a"])] }
      (RootFs.dir [{ name := "a", isDir := true, skillMd := some (StatOutcome.mtime 5) }]) =
    some ({ skills_dir := ["skills"], poll_interval := 1, running := false, task := false,
            stopped := false, mtimes := [(["skills", "a", "SKILL.md"], 5)],
            known_skills := [("a", ["skills", "a"])] }, []) :=
  C9_force_refresh_twice (mkSkillWatcher ["skills"] 1)
    (RootFs.dir [{ name := "a", isDir := true, skillMd := some (StatOutcome.mtime 5) }])
    ({ skills_dir := ["skills"], poll_interval := 1, running := false, task := false,
       stopped := false, mtimes := [(["skills", "a", "SKILL.md"], 5)],
       known_skills := [("a", ["skills", "a"])] },
     [{ skill_name := "a", skill_path := ["skills", "a"],
        change_type := ChangeType.CREATED, file_path := ["skills", "a", "SKILL.md"] }])
    rfl
